import Mathlib

/-!
Verification of the air-quality ETL pipeline
(`ETL_GLOBAL_ENVIRONMENT/{extract,transform,run_pipeline,etl_analysis}.py`
and `task-2/scripts/load.py`) against its natural-language specification.

Nullable pandas numerics are modelled as `Option ℚ`: a `none` stands for
NaN/null.  Pandas arithmetic propagates NaN through `*` and `+`, and Python
comparisons with NaN are false; both behaviours are modelled explicitly below.
-/

namespace ETL

/-! ### Feature Engine (transform.py) -/

/-- Pandas multiplication of a nullable series by a scalar: NaN propagates. -/
def optMul (a : Option ℚ) (k : ℚ) : Option ℚ :=
  a.map (fun x => x * k)

/-- Pandas addition of two nullable values: NaN propagates. -/
def optAdd (a b : Option ℚ) : Option ℚ :=
  match a, b with
  | some x, some y => some (x + y)
  | _, _ => none

/-- transform.py lines 115-122:
`df["severity"] = df["pm2_5"]*5 + df["pm10"]*3 + df["nitrogen_dioxide"]*4 +
df["sulphur_dioxide"]*4 + df["carbon_monoxide"]*2 + df["ozone"]*3`. -/
def severity (pm2_5 pm10 no2 so2 co o3 : Option ℚ) : Option ℚ :=
  optAdd (optAdd (optAdd (optAdd (optAdd
    (optMul pm2_5 5) (optMul pm10 3)) (optMul no2 4)) (optMul so2 4))
    (optMul co 2)) (optMul o3 3)

/-- transform.py lines 17-29: `aqi_category(pm25)` with `pd.isna` guard. -/
def aqi_category (pm25 : Option ℚ) : String :=
  match pm25 with
  | none => "Unknown"
  | some v =>
    if v ≤ 50 then "Good"
    else if v ≤ 100 then "Moderate"
    else if v ≤ 200 then "Unhealthy"
    else if v ≤ 300 then "Very Unhealthy"
    else "Hazardous"

/-- Python comparison `s > c` on a nullable value: NaN compares false. -/
def optGt (s : Option ℚ) (c : ℚ) : Bool :=
  match s with
  | none => false
  | some x => decide (c < x)

/-- transform.py lines 35-41: `classify_risk(severity)`; a NaN severity falls
through both `>` comparisons to the else-branch. -/
def classify_risk (s : Option ℚ) : String :=
  if optGt s 400 then "High Risk"
  else if optGt s 200 then "Moderate Risk"
  else "Low Risk"

/-! ### Staged Dataset Builder row filter (transform.py) -/

/-- One normalized observation row's numeric columns, post
`pd.to_numeric(..., errors="coerce")` (invalid entries became null). -/
structure RawRow where
  pm10 : Option ℚ
  pm2_5 : Option ℚ
  carbon_monoxide : Option ℚ
  nitrogen_dioxide : Option ℚ
  sulphur_dioxide : Option ℚ
  ozone : Option ℚ
  uv_index : Option ℚ
deriving DecidableEq

/-- transform.py lines 100-104: `num_cols` spans SEVEN columns — the six
pollutants and `uv_index`.  This predicate is `dropna`'s "all of subset null"
test over exactly those columns. -/
def num_cols_all_null (r : RawRow) : Bool :=
  r.pm10.isNone && r.pm2_5.isNone && r.carbon_monoxide.isNone &&
  r.nitrogen_dioxide.isNone && r.sulphur_dioxide.isNone &&
  r.ozone.isNone && r.uv_index.isNone

/-- transform.py line 110: `df.dropna(subset=num_cols, how="all")` keeps a row
unless every column of `num_cols` is null. -/
def dropAllNull (rows : List RawRow) : List RawRow :=
  rows.filter (fun r => ! num_cols_all_null r)

/-- Spec-side predicate (for comparison with the code): the spec speaks of the
SIX raw pollutant fields being null, not mentioning `uv_index`. -/
def sixPollutantsNull (r : RawRow) : Bool :=
  r.pm10.isNone && r.pm2_5.isNone && r.carbon_monoxide.isNone &&
  r.nitrogen_dioxide.isNone && r.sulphur_dioxide.isNone && r.ozone.isNone

/-- A row with all six pollutants null but a non-null `uv_index`. -/
def uvOnlyRow : RawRow :=
  ⟨none, none, none, none, none, none, some 1⟩

/-! ### Retrying Fetcher (extract.py) -/

/-- extract.py line 18: `MAX_RETRIES = int(os.getenv("MAX_RETRIES", 3))`. -/
def MAX_RETRIES_default : ℕ := 3

/-- Observable outcome of one `fetch_with_retry` call: the returned payload
(`none` models Python `None`), the number of requests issued, and the number
of `time.sleep(1)` backoff calls executed. -/
structure FetchRun where
  result : Option ℚ
  attempts : ℕ
  sleeps : ℕ
deriving DecidableEq

/-- extract.py lines 41-58, the body of `for attempt in range(1, MAX_RETRIES+1)`.
`oracle attempt` is the outcome of the attempt-th HTTP request: `some p` for a
200 response with payload `p`, `none` for a non-200 status or a raised
exception.  A 200 response returns immediately (before any sleep); every
failed attempt executes `time.sleep(1)` and continues; an exhausted loop
returns `None`. -/
def fetchGo (oracle : ℕ → Option ℚ) (attempt : ℕ) : ℕ → FetchRun
  | 0 => ⟨none, attempt - 1, attempt - 1⟩
  | r + 1 =>
    match oracle attempt with
    | some p => ⟨some p, attempt, attempt - 1⟩
    | none => fetchGo oracle (attempt + 1) r

/-- extract.py lines 40-58: `fetch_with_retry(url, city)`, attempts numbered
from 1 up to `maxRetries`. -/
def fetch_with_retry (maxRetries : ℕ) (oracle : ℕ → Option ℚ) : FetchRun :=
  fetchGo oracle 1 maxRetries

/-- extract.py lines 64-96: `extract_air_quality()` iterates the configured
cities in order; `fetch c = none` means `fetch_with_retry` returned `None`
for that city, in which case the loop `continue`s; otherwise the raw payload
is saved and the file (modelled by its city) is appended to `saved_files`. -/
def extract_air_quality (fetch : String → Option ℚ) : List String → List String
  | [] => []
  | c :: rest =>
    match fetch c with
    | none => extract_air_quality fetch rest
    | some _ => c :: extract_air_quality fetch rest

/-! ### Batched Loader (task-2/scripts/load.py) -/

/-- load.py lines 76-86, the `while attempts < 3 and not success` loop for one
batch.  `tryIns k` is the outcome of the k-th `insert(batch).execute()` call
(0-based); a raised exception counts one attempt (and sleeps 2s), a clean call
sets `success`.  The argument `attempts` is the loop counter, `remaining` is
`3 - attempts`. -/
def uploadGo (tryIns : ℕ → Bool) (attempts : ℕ) : ℕ → Bool
  | 0 => false
  | r + 1 =>
    if tryIns attempts then true else uploadGo tryIns (attempts + 1) r

/-- Whether one batch's upload eventually succeeded within its 3 attempts. -/
def uploadBatch (tryIns : ℕ → Bool) : Bool :=
  uploadGo tryIns 0 3

/-- Observable outcome of `load_data`'s batch loop: the batch start indices
for which an upload was attempted, those recorded as permanently failed,
those uploaded, and whether the final line 92 success message was printed.
The Python function itself returns `None` — it produces no report value —
so these fields record its prints and calls. -/
structure LoadRun where
  attemptedBatches : List ℕ
  failedBatches : List ℕ
  uploadedBatches : List ℕ
  printedSuccessMsg : Bool
deriving DecidableEq

/-- load.py lines 69-92: the `for start in range(0, total, batch_size)` loop.
`upload s k` is the outcome of the k-th insert attempt for the batch starting
at row `s`.  On a batch that exhausts its 3 attempts the code prints the
failure line and `break`s out of the for-loop (line 90); the final success
message (line 92) is printed unconditionally after the loop. -/
def loadBatches (upload : ℕ → ℕ → Bool) : List ℕ → LoadRun
  | [] => ⟨[], [], [], true⟩
  | s :: rest =>
    if uploadBatch (upload s) then
      let r := loadBatches upload rest
      ⟨s :: r.attemptedBatches, r.failedBatches, s :: r.uploadedBatches,
        r.printedSuccessMsg⟩
    else
      ⟨[s], [s], [], true⟩

/-- Python `range(0, total, batch_size)` of batch start indices. -/
def batchStarts (total batch_size : ℕ) : List ℕ :=
  List.range' 0 ((total + batch_size - 1) / batch_size) batch_size

/-- load.py lines 47-92: `load_data()` with `total` staged rows and
`batch_size = 200` (parameterized here; the counterexamples use 200). -/
def load_data (upload : ℕ → ℕ → Bool) (total batch_size : ℕ) : LoadRun :=
  loadBatches upload (batchStarts total batch_size)

/-- An insert oracle under which every attempt of every batch fails. -/
def alwaysFailUpload : ℕ → ℕ → Bool := fun _ _ => false

/-- An insert oracle under which the batch starting at row 0 succeeds at once
and every other batch fails all its attempts. -/
def failSecondUpload : ℕ → ℕ → Bool := fun s _ => decide (s = 0)

/-! ### Pipeline Orchestrator (run_pipeline.py) -/

/-- The four pipeline stages, in their run_pipeline.py `main()` order. -/
inductive Stage
  | extract
  | transform
  | load
  | analyze
deriving DecidableEq

/-- The log lines run_pipeline.py prints, one constructor per print site.
`completedIn s t` is the only event that carries an elapsed time `t`
(line 29, printed on success only); the failure path prints the error line
(line 33), the traceback (line 34), and the SystemExit message (line 35). -/
inductive LogEvent
  | started (s : Stage)
  | completedIn (s : Stage) (elapsed : ℕ)
  | errorIn (s : Stage)
  | stackTrace (s : Stage)
  | pipelineStoppedAt (s : Stage)
deriving DecidableEq

/-- run_pipeline.py lines 19-35: `run_step` prints the start line, runs the
stage, and either prints the completion line with the elapsed time (success)
or prints the error line and traceback and raises SystemExit (failure).
`ok` is whether the stage function returned without raising; `elapsed` is the
measured stage duration.  Returns the printed events and whether execution
continues past this stage. -/
def run_step (s : Stage) (ok : Bool) (elapsed : ℕ) : List LogEvent × Bool :=
  if ok then ([.started s, .completedIn s elapsed], true)
  else ([.started s, .errorIn s, .stackTrace s, .pipelineStoppedAt s], false)

/-- The orchestrated stage order of run_pipeline.py `main()`. -/
def pipeline_stages : List Stage :=
  [.extract, .transform, .load, .analyze]

/-- run_pipeline.py lines 38-56: `main()` runs the four stages in order; a
SystemExit raised inside `run_step` propagates, so no later stage runs.
`behave s = (ok, elapsed)` describes stage `s`'s execution.  Returns the
full printed log and the list of stages that were actually started. -/
def pipelineMain (behave : Stage → Bool × ℕ) : List LogEvent × List Stage :=
  let (l1, ok1) := run_step .extract (behave .extract).1 (behave .extract).2
  if ok1 then
    let (l2, ok2) := run_step .transform (behave .transform).1 (behave .transform).2
    if ok2 then
      let (l3, ok3) := run_step .load (behave .load).1 (behave .load).2
      if ok3 then
        let (l4, _) := run_step .analyze (behave .analyze).1 (behave .analyze).2
        (l1 ++ l2 ++ l3 ++ l4, [.extract, .transform, .load, .analyze])
      else (l1 ++ l2 ++ l3, [.extract, .transform, .load])
    else (l1 ++ l2, [.extract, .transform])
  else (l1, [.extract])

/-- The events of `log` that report an elapsed time for stage `s`
(the success-only completion line is the only event carrying a time). -/
def completedEvents (s : Stage) (log : List LogEvent) : List LogEvent :=
  log.filter fun e =>
    match e with
    | .completedIn s2 _ => decide (s2 = s)
    | _ => false

/-- A stage-behaviour in which Extract succeeds in 7 seconds and Transform
raises; Load and Analyze would fail too but are never reached. -/
def transformFails : Stage → Bool × ℕ := fun s =>
  match s with
  | .extract => (true, 7)
  | _ => (false, 5)

/-! ### Analytics Engine (etl_analysis.py) -/

/-- One row of the persisted table as read back by `fetch_table_as_df`,
after its numeric coercions (nulls modelled as `none`; the timestamp is
modelled as an abstract `Option ℕ` instant). -/
structure ARow where
  city : String
  time : Option ℕ
  hour : Option ℕ
  pm2_5 : Option ℚ
  pm10 : Option ℚ
  ozone : Option ℚ
  severity_score : Option ℚ
  risk_flag : String
deriving DecidableEq

/-- etl_analysis.py lines 93-100: the single-row `summary_metrics` record;
every field is `None` when its source frame is empty. -/
structure KpiSummary where
  city_highest_avg_pm2_5 : Option String
  highest_avg_pm2_5 : Option ℚ
  city_highest_avg_severity : Option String
  highest_avg_severity : Option ℚ
  worst_hour_of_day : Option ℕ
  worst_hour_avg_pm2_5 : Option ℚ
deriving DecidableEq

/-- One row of `city_risk_distribution.csv`: count, total and percentage of a
city's rows carrying one risk flag (lines 84-87). -/
structure RiskRow where
  city : String
  risk_flag : String
  count : ℕ
  total : ℕ
  percent : ℚ
deriving DecidableEq

/-- One row of `pollution_trends.csv` (lines 105-108). -/
structure TrendRow where
  city : String
  time : ℕ
  pm2_5 : Option ℚ
  pm10 : Option ℚ
  ozone : Option ℚ
deriving DecidableEq

/-- Pandas `.mean()` over a nullable column: nulls are skipped; the mean of an
empty or all-null column is NaN. -/
def optMean (xs : List (Option ℚ)) : Option ℚ :=
  let vs := xs.filterMap id
  if vs.isEmpty then none else some (vs.sum / (vs.length : ℚ))

/-- Pandas `groupby("city")`: the distinct city keys, sorted ascending. -/
def cityKeys (rows : List ARow) : List String :=
  ((rows.map (fun r => r.city)).dedup).mergeSort (fun a b => decide (a ≤ b))

/-- Mean of column `f` over the given city's rows. -/
def cityMean (rows : List ARow) (f : ARow → Option ℚ) (c : String) : Option ℚ :=
  optMean ((rows.filter (fun r => r.city == c)).map f)

/-- `sort_values(..., ascending=False).head(1)` over per-key means: the first
key (in groupby's ascending key order) attaining the maximal non-null mean,
or `none` when every mean is null.  Ties keep the earlier key, matching the
spec's "first of equal maxima" reading. -/
def argmaxQ : List (String × ℚ) → Option (String × ℚ)
  | [] => none
  | x :: xs => some (xs.foldl (fun best y => if best.2 < y.2 then y else best) x)

/-- Top (key, mean) pair for column `f`, per etl_analysis.py lines 76-81. -/
def topCityBy (rows : List ARow) (f : ARow → Option ℚ) : Option (String × ℚ) :=
  argmaxQ ((cityKeys rows).filterMap
    (fun c => (cityMean rows f c).map (fun m => (c, m))))

/-- etl_analysis.py line 90: the distinct hour keys, ascending, nulls dropped
(pandas groupby drops NaN keys). -/
def hourKeys (rows : List ARow) : List ℕ :=
  ((rows.filterMap (fun r => r.hour)).dedup).mergeSort (fun a b => decide (a ≤ b))

/-- Mean pm2_5 over the rows of one hour of day. -/
def hourMean (rows : List ARow) (h : ℕ) : Option ℚ :=
  optMean ((rows.filter (fun r => r.hour == some h)).map (fun r => r.pm2_5))

/-- Worst hour of day: the hour with the maximal mean pm2_5 (lines 90, 98-99). -/
def worstHour (rows : List ARow) : Option (ℕ × ℚ) :=
  match (hourKeys rows).filterMap (fun h => (hourMean rows h).map (fun m => (h, m))) with
  | [] => none
  | x :: xs => some (xs.foldl (fun best y => if best.2 < y.2 then y else best) x)

/-- etl_analysis.py lines 74-103: `compute_kpis` summary record. -/
def compute_kpis (rows : List ARow) : KpiSummary :=
  let topPm := topCityBy rows (fun r => r.pm2_5)
  let topSev := topCityBy rows (fun r => r.severity_score)
  let wh := worstHour rows
  ⟨topPm.map (fun p => p.1), topPm.map (fun p => p.2),
   topSev.map (fun p => p.1), topSev.map (fun p => p.2),
   wh.map (fun p => p.1), wh.map (fun p => p.2)⟩

/-- Pandas `.round(2)` modelled as rounding to the nearest hundredth
(the half-tie direction is irrelevant to every claim below). -/
def round2 (q : ℚ) : ℚ :=
  (round (q * 100) : ℤ) / 100

/-- etl_analysis.py lines 84-87: count, total and percent per
(city, risk_flag) group, keys in first-appearance order of the pair list. -/
def riskDistribution (rows : List ARow) : List RiskRow :=
  ((rows.map (fun r => (r.city, r.risk_flag))).dedup).map (fun p =>
    let count := (rows.filter
      (fun r => r.city == p.1 && r.risk_flag == p.2)).length
    let total := (rows.filter (fun r => r.city == p.1)).length
    ⟨p.1, p.2, count, total, round2 ((count : ℚ) / (total : ℚ) * 100)⟩)

/-- etl_analysis.py lines 105-108: `export_trends` keeps city, time, pm2_5,
pm10, ozone, drops null-time rows and sorts by city then time. -/
def export_trends (rows : List ARow) : List TrendRow :=
  ((rows.filterMap (fun r =>
      (r.time).map (fun t => TrendRow.mk r.city t r.pm2_5 r.pm10 r.ozone)))
    ).mergeSort (fun a b =>
      decide (a.city < b.city) || (a.city == b.city && decide (a.time ≤ b.time)))

/-- What `main()` observably does: whether the "No data found" line was
printed, and the outputs it computed and saved (none at all on the empty
early return at lines 170-172). -/
structure AnalysisResult where
  noDataSignal : Bool
  outputs : Option (KpiSummary × List RiskRow × List TrendRow)
deriving DecidableEq

/-- etl_analysis.py lines 168-186: `main()` reads the table back as `rows`;
`if df.empty` it prints "No data found in Supabase table." and returns
(computing and saving nothing); otherwise it computes the KPI summary, risk
distribution and trends and saves them. -/
def analysisMain (rows : List ARow) : AnalysisResult :=
  if rows.isEmpty then ⟨true, none⟩
  else ⟨false, some (compute_kpis rows, riskDistribution rows, export_trends rows)⟩

/-- The KPI summary whose fields are all null, as the spec's empty-input
sentence describes it. -/
def nullKpiSummary : KpiSummary :=
  ⟨none, none, none, none, none, none⟩

/-! ### City attribution from filenames (extract.py / transform.py) -/

/-- Python `s.split("_")` on a string modelled as a character list: splits on
every underscore; the empty string yields one empty field; the result is
never the empty list. -/
def pySplitUnderscore : List Char → List (List Char)
  | [] => [[]]
  | c :: rest =>
    if c = '_' then [] :: pySplitUnderscore rest
    else
      match pySplitUnderscore rest with
      | [] => [[c]]
      | t :: ts => (c :: t) :: ts

/-- transform.py line 58: `city = file.name.split("_")[0]`. -/
def cityFromFilename (f : List Char) : List Char :=
  (pySplitUnderscore f).headD []

/-- The longest underscore-free prefix of a string: what `split("_")[0]`
evaluates to. -/
def takeBeforeUnderscore : List Char → List Char
  | [] => []
  | c :: rest => if c = '_' then [] else c :: takeBeforeUnderscore rest

/-- extract.py lines 85-86: the raw file is named
`f"{city}_raw_{timestamp}.json"`. -/
def mkRawFilename (city ts : List Char) : List Char :=
  city ++ "_raw_".toList ++ ts ++ ".json".toList

/-! ## Helper lemmas -/

theorem optMul_none (k : ℚ) : optMul none k = none := rfl

theorem optAdd_none_left (b : Option ℚ) : optAdd none b = none := by
  cases b <;> rfl

theorem optAdd_none_right (a : Option ℚ) : optAdd a none = none := by
  cases a <;> rfl

/-! ## C1 — severity formula and null propagation -/

/-- C1: for every observation row the Feature Engine computes
severity = 5·pm2_5 + 3·pm10 + 4·no2 + 4·so2 + 2·co + 3·ozone; if any one of
the six inputs is null the result is null (propagation, never substitution by
zero), and the example row (60, 40, 10, 5, 2, 20) scores 544. -/
theorem severity_formula_and_null_propagation :
    (∀ a b c d e f : ℚ,
      severity (some a) (some b) (some c) (some d) (some e) (some f) =
        some (5 * a + 3 * b + 4 * c + 4 * d + 2 * e + 3 * f)) ∧
    (∀ pm2_5 pm10 no2 so2 co o3 : Option ℚ,
      (pm2_5 = none ∨ pm10 = none ∨ no2 = none ∨ so2 = none ∨
        co = none ∨ o3 = none) →
      severity pm2_5 pm10 no2 so2 co o3 = none) ∧
    severity (some 60) (some 40) (some 10) (some 5) (some 2) (some 20) =
      some 544 := by
  refine ⟨?_, ?_, ?_⟩
  · intro a b c d e f
    simp only [severity, optMul, optAdd, Option.map_some']
    congr 1
    ring
  · intro pm2_5 pm10 no2 so2 co o3 h
    rcases h with h | h | h | h | h | h <;> subst h <;>
      simp [severity, optMul_none, optAdd_none_left, optAdd_none_right]
  · norm_num [severity, optMul, optAdd]

/-- Witness for C1: a null pm2_5 propagates to a null severity. -/
theorem severity_null_propagation_witness :
    severity none (some 1) (some 1) (some 1) (some 1) (some 1) = none :=
  severity_formula_and_null_propagation.2.1 none (some 1) (some 1) (some 1)
    (some 1) (some 1) (Or.inl rfl)

/-! ## C3 — which rows the staged-dataset filter discards -/

/-- C3 counterexample: `uvOnlyRow` has all six pollutant fields null, yet it
survives the dropna filter because its seventh `num_cols` column `uv_index`
is non-null — refuting "a row with all six pollutant fields null is discarded
before the staged dataset is written". -/
theorem all_six_null_row_kept_counterexample :
    sixPollutantsNull uvOnlyRow = true ∧
    uvOnlyRow ∈ dropAllNull [uvOnlyRow] := by
  decide

/-- C3 amended: a normalized row is discarded before staging iff all SEVEN
numeric columns — the six pollutants and uv_index — are null post-coercion;
in particular every row with at least one non-null pollutant is kept. -/
theorem dropAllNull_keeps_iff (rows : List RawRow) (r : RawRow)
    (h : r ∈ rows) :
    (r ∈ dropAllNull rows ↔ num_cols_all_null r = false) ∧
    (sixPollutantsNull r = false → r ∈ dropAllNull rows) := by
  constructor
  · simp [dropAllNull, List.mem_filter, h]
  · intro h6
    have h7 : num_cols_all_null r = false := by
      simp only [sixPollutantsNull, Bool.and_eq_false_iff] at h6
      simp only [num_cols_all_null, Bool.and_eq_false_iff]
      tauto
    simp [dropAllNull, List.mem_filter, h, h7]

/-- Witness for C3's amended theorem at the concrete kept row. -/
theorem dropAllNull_keeps_iff_witness :
    uvOnlyRow ∈ dropAllNull [uvOnlyRow] :=
  (dropAllNull_keeps_iff [uvOnlyRow] uvOnlyRow (by decide)).1.mpr (by decide)

/-! ## C4 — aqi_category bands -/

/-- C4: aqi_category is total and returns Unknown on null, Good for v ≤ 50,
Moderate for 50 < v ≤ 100, Unhealthy for 100 < v ≤ 200, Very Unhealthy for
200 < v ≤ 300 and Hazardous for v > 300. -/
theorem aqi_category_bands :
    aqi_category none = "Unknown" ∧
    (∀ v : ℚ, v ≤ 50 → aqi_category (some v) = "Good") ∧
    (∀ v : ℚ, 50 < v → v ≤ 100 → aqi_category (some v) = "Moderate") ∧
    (∀ v : ℚ, 100 < v → v ≤ 200 → aqi_category (some v) = "Unhealthy") ∧
    (∀ v : ℚ, 200 < v → v ≤ 300 → aqi_category (some v) = "Very Unhealthy") ∧
    (∀ v : ℚ, 300 < v → aqi_category (some v) = "Hazardous") := by
  refine ⟨rfl, ?_, ?_, ?_, ?_, ?_⟩
  · intro v h1
    simp only [aqi_category]
    rw [if_pos h1]
  · intro v h1 h2
    simp only [aqi_category]
    rw [if_neg (by linarith), if_pos h2]
  · intro v h1 h2
    simp only [aqi_category]
    rw [if_neg (by linarith), if_neg (by linarith), if_pos h2]
  · intro v h1 h2
    simp only [aqi_category]
    rw [if_neg (by linarith), if_neg (by linarith), if_neg (by linarith),
      if_pos h2]
  · intro v h1
    simp only [aqi_category]
    rw [if_neg (by linarith), if_neg (by linarith), if_neg (by linarith),
      if_neg (by linarith)]

/-- Witness for C4: the example value 60 is Moderate. -/
theorem aqi_category_bands_witness : aqi_category (some 60) = "Moderate" :=
  aqi_category_bands.2.2.1 60 (by decide) (by decide)

/-! ## C5 — classify_risk partition -/

/-- C5: classify_risk is total and partitions its nullable domain into
exactly three buckets with exclusive-above boundaries — High Risk iff
s > 400, Moderate Risk iff 200 < s ≤ 400, Low Risk otherwise — and a null
severity lands in the default Low Risk bucket. -/
theorem classify_risk_partition (s : Option ℚ) :
    (classify_risk s = "High Risk" ↔ ∃ x, s = some x ∧ 400 < x) ∧
    (classify_risk s = "Moderate Risk" ↔
      ∃ x, s = some x ∧ 200 < x ∧ x ≤ 400) ∧
    (classify_risk s = "Low Risk" ↔ ∀ x, s = some x → x ≤ 200) ∧
    classify_risk none = "Low Risk" ∧
    (classify_risk s = "High Risk" ∨ classify_risk s = "Moderate Risk" ∨
      classify_risk s = "Low Risk") := by
  rcases s with _ | x
  · refine ⟨?_, ?_, ?_, rfl, Or.inr (Or.inr rfl)⟩ <;>
      simp [classify_risk, optGt]
  · by_cases h4 : (400 : ℚ) < x
    · have hc : classify_risk (some x) = "High Risk" := by
        simp [classify_risk, optGt, h4]
      rw [hc]
      refine ⟨?_, ?_, ?_, rfl, Or.inl rfl⟩
      · simp only [true_iff]
        exact ⟨x, rfl, h4⟩
      · constructor
        · intro h
          exact absurd h (by decide)
        · rintro ⟨y, hy, _, hy400⟩
          cases hy
          linarith
      · constructor
        · intro h
          exact absurd h (by decide)
        · intro h
          have := h x rfl
          linarith
    · by_cases h2 : (200 : ℚ) < x
      · have hc : classify_risk (some x) = "Moderate Risk" := by
          simp [classify_risk, optGt, h4, h2]
        rw [hc]
        refine ⟨?_, ?_, ?_, rfl, Or.inr (Or.inl rfl)⟩
        · constructor
          · intro h
            exact absurd h (by decide)
          · rintro ⟨y, hy, hy400⟩
            cases hy
            exact absurd hy400 h4
        · simp only [true_iff]
          exact ⟨x, rfl, h2, not_lt.1 h4⟩
        · constructor
          · intro h
            exact absurd h (by decide)
          · intro h
            have := h x rfl
            linarith
      · have hc : classify_risk (some x) = "Low Risk" := by
          simp [classify_risk, optGt, h4, h2]
        rw [hc]
        refine ⟨?_, ?_, ?_, rfl, Or.inr (Or.inr rfl)⟩
        · constructor
          · intro h
            exact absurd h (by decide)
          · rintro ⟨y, hy, hy400⟩
            cases hy
            exact absurd hy400 h4
        · constructor
          · intro h
            exact absurd h (by decide)
          · rintro ⟨y, hy, hy200, _⟩
            cases hy
            exact absurd hy200 h2
        · simp only [true_iff]
          intro y hy
          cases hy
          exact not_lt.1 h2

/-- Witness for C5: the example severity 544 is High Risk. -/
theorem classify_risk_partition_witness :
    classify_risk (some 544) = "High Risk" :=
  (classify_risk_partition (some 544)).1.mpr ⟨544, rfl, by decide⟩

/-! ## C2 — the loader does NOT move on past a failed batch -/

/-- C2 counterexample: with 400 staged rows there are two batches (starts 0
and 200); every insert attempt fails, so batch 0 exhausts its 3 attempts and
is recorded as failed — and the loader attempts no later batch (batch 200 is
absent from `attemptedBatches`), refuting "the Batched Loader still attempts
every later batch". -/
theorem loader_moves_on_counterexample :
    batchStarts 400 200 = [0, 200] ∧
    load_data alwaysFailUpload 400 200 =
      ⟨[0], [0], [], true⟩ := by
  decide

/-- C2 amended: when a batch exhausts its 3 upload attempts it is recorded as
permanently failed and the loader BREAKS out of the batch loop — no later
batch is attempted (one bad batch aborts the remainder of the load), though
the final completion message is still printed. -/
theorem loader_short_circuits (upload : ℕ → ℕ → Bool) (s : ℕ)
    (rest : List ℕ) (hfail : uploadBatch (upload s) = false) :
    loadBatches upload (s :: rest) = ⟨[s], [s], [], true⟩ := by
  simp [loadBatches, hfail]

/-- Witness for C2's amended theorem on the two-batch all-failing run. -/
theorem loader_short_circuits_witness :
    loadBatches alwaysFailUpload (0 :: [200]) = ⟨[0], [0], [], true⟩ :=
  loader_short_circuits alwaysFailUpload 0 [200] (by decide)

/-! ## C7 — the loader's top-level success report -/

/-- C7 counterexample: under `failSecondUpload` the first batch uploads and
the second permanently fails, yet the loader still prints its final
"Upload completed successfully!" message — overall success is reported even
though not every batch succeeded, refuting the claimed iff (the Python
function also returns `None`, not a load report value). -/
theorem loader_reports_success_counterexample :
    (load_data failSecondUpload 400 200).failedBatches = [200] ∧
    (load_data failSecondUpload 400 200).printedSuccessMsg = true := by
  decide

/-- C7 amended: the loader prints its final completion-success message
unconditionally — even on runs in which a batch permanently failed — and
returns no load report; overall success is not conditioned on the batch
outcomes. -/
theorem loader_always_prints_success (upload : ℕ → ℕ → Bool)
    (batches : List ℕ) :
    (loadBatches upload batches).printedSuccessMsg = true := by
  induction batches with
  | nil => rfl
  | cons s rest ih =>
    by_cases h : uploadBatch (upload s) = true
    · simp [loadBatches, h, ih]
    · simp [loadBatches, h]

/-! ## C6 — fetcher retry bound, backoff, failure value, batch continuation -/

/-- Number of attempts `fetchGo` makes is bounded by the attempts already
made plus the remaining budget. -/
theorem fetchGo_attempts_le (oracle : ℕ → Option ℚ) :
    ∀ remaining attempt,
      (fetchGo oracle attempt remaining).attempts ≤ attempt - 1 + remaining := by
  intro remaining
  induction remaining with
  | zero =>
    intro attempt
    simp [fetchGo]
  | succ r ih =>
    intro attempt
    cases h : oracle attempt with
    | some p =>
      simp [fetchGo, h]
      omega
    | none =>
      simp only [fetchGo, h]
      have := ih (attempt + 1)
      omega

/-- When every attempt in the budget fails, `fetchGo` returns the failure
value after making and sleeping through every attempt. -/
theorem fetchGo_all_fail (oracle : ℕ → Option ℚ) :
    ∀ remaining attempt, 1 ≤ attempt →
      (∀ j, attempt ≤ j → j < attempt + remaining → oracle j = none) →
      fetchGo oracle attempt remaining =
        ⟨none, attempt - 1 + remaining, attempt - 1 + remaining⟩ := by
  intro remaining
  induction remaining with
  | zero =>
    intro attempt _ _
    simp [fetchGo]
  | succ r ih =>
    intro attempt h1 hall
    have hfail : oracle attempt = none := hall attempt le_rfl (by omega)
    simp only [fetchGo, hfail]
    rw [ih (attempt + 1) (by omega) (fun j hj1 hj2 => hall j (by omega) (by omega))]
    congr 1 <;> omega

/-- On a successful fetch, the sleeps number one fewer than the attempts:
a 1-second sleep followed every failed attempt and none follows the success. -/
theorem fetchGo_success_sleeps (oracle : ℕ → Option ℚ) :
    ∀ remaining attempt p,
      (fetchGo oracle attempt remaining).result = some p →
      (fetchGo oracle attempt remaining).sleeps =
        (fetchGo oracle attempt remaining).attempts - 1 := by
  intro remaining
  induction remaining with
  | zero =>
    intro attempt p h
    simp [fetchGo] at h
  | succ r ih =>
    intro attempt p h
    simp only [fetchGo] at h ⊢
    cases ho : oracle attempt with
    | some q => simp [ho]
    | none =>
      rw [ho] at h
      exact ih (attempt + 1) p h

/-- C6: for every city the Retrying Fetcher makes at most `maxRetries`
(default 3) attempts, sleeps a fixed 1 second after each failed attempt,
returns the failure value None (not an exception) after exhausting all
attempts, and the extraction loop then continues with the next city — one
city's failure never aborts the batch. -/
theorem fetcher_retries_and_continues (mr : ℕ) (oracle : ℕ → Option ℚ)
    (fetch : String → Option ℚ) (c : String) (rest : List String) :
    MAX_RETRIES_default = 3 ∧
    (fetch_with_retry mr oracle).attempts ≤ mr ∧
    (∀ p, (fetch_with_retry mr oracle).result = some p →
      (fetch_with_retry mr oracle).sleeps =
        (fetch_with_retry mr oracle).attempts - 1) ∧
    ((∀ j, 1 ≤ j → j ≤ mr → oracle j = none) →
      fetch_with_retry mr oracle = ⟨none, mr, mr⟩) ∧
    (fetch c = none →
      extract_air_quality fetch (c :: rest) = extract_air_quality fetch rest) := by
  refine ⟨rfl, ?_, ?_, ?_, ?_⟩
  · have := fetchGo_attempts_le oracle mr 1
    simpa [fetch_with_retry] using this
  · intro p h
    exact fetchGo_success_sleeps oracle mr 1 p h
  · intro hall
    have := fetchGo_all_fail oracle mr 1 le_rfl
      (fun j hj1 hj2 => hall j hj1 (by omega))
    simpa [fetch_with_retry] using this
  · intro hc
    simp [extract_air_quality, hc]

/-- Witness for C6: three all-failing attempts, three sleeps, None returned,
and the failed city is skipped while the next city is still extracted. -/
theorem fetcher_retries_witness :
    fetch_with_retry 3 (fun _ => (none : Option ℚ)) = ⟨none, 3, 3⟩ :=
  (fetcher_retries_and_continues 3 (fun _ => none) (fun _ => none)
    "Delhi" []).2.2.2.1 (fun _ _ _ => rfl)

/-! ## C8 — what the orchestrator logs on a stage failure -/

/-- C8 counterexample: when Transform raises, the full log is the start lines,
Extract's completion line with its elapsed time, and Transform's error,
traceback and SystemExit lines — the log holds NO event carrying Transform's
elapsed time (the elapsed time is printed only on the success path), refuting
"logs that stage's name, its elapsed time, and the stack context"; the run
does halt after Transform. -/
theorem orchestrator_failure_log_counterexample :
    (pipelineMain transformFails).1 =
      [.started .extract, .completedIn .extract 7, .started .transform,
       .errorIn .transform, .stackTrace .transform,
       .pipelineStoppedAt .transform] ∧
    completedEvents .transform (pipelineMain transformFails).1 = [] ∧
    (pipelineMain transformFails).2 = [.extract, .transform] := by
  decide

/-- C8 amended: the stages execute strictly in the order Extract, Transform,
Load, Analyze, and whichever stage is the first to raise, the orchestrator
logs that stage's name in the error line, the stack context and the
stopped-at line, then halts — no later stage is started and the failed stage
is the last executed.  The full log of every failing run is given explicitly
below: it contains a `completedIn` (elapsed-time) event only for the stages
that SUCCEEDED, never for the failed stage — the orchestrator does not log
the failed stage's elapsed time. -/
theorem orchestrator_halts_and_logs (behave : Stage → Bool × ℕ) :
    ((behave .extract).1 = false →
      pipelineMain behave =
        ([.started .extract, .errorIn .extract, .stackTrace .extract,
          .pipelineStoppedAt .extract],
         [.extract])) ∧
    ((behave .extract).1 = true → (behave .transform).1 = false →
      pipelineMain behave =
        ([.started .extract, .completedIn .extract (behave .extract).2,
          .started .transform, .errorIn .transform, .stackTrace .transform,
          .pipelineStoppedAt .transform],
         [.extract, .transform])) ∧
    ((behave .extract).1 = true → (behave .transform).1 = true →
      (behave .load).1 = false →
      pipelineMain behave =
        ([.started .extract, .completedIn .extract (behave .extract).2,
          .started .transform, .completedIn .transform (behave .transform).2,
          .started .load, .errorIn .load, .stackTrace .load,
          .pipelineStoppedAt .load],
         [.extract, .transform, .load])) ∧
    ((behave .extract).1 = true → (behave .transform).1 = true →
      (behave .load).1 = true → (behave .analyze).1 = false →
      pipelineMain behave =
        ([.started .extract, .completedIn .extract (behave .extract).2,
          .started .transform, .completedIn .transform (behave .transform).2,
          .started .load, .completedIn .load (behave .load).2,
          .started .analyze, .errorIn .analyze, .stackTrace .analyze,
          .pipelineStoppedAt .analyze],
         [.extract, .transform, .load, .analyze])) := by
  refine ⟨?_, ?_, ?_, ?_⟩
  · intro h1
    simp [pipelineMain, run_step, h1]
  · intro h1 h2
    simp [pipelineMain, run_step, h1, h2]
  · intro h1 h2 h3
    simp [pipelineMain, run_step, h1, h2, h3]
  · intro h1 h2 h3 h4
    simp [pipelineMain, run_step, h1, h2, h3, h4]

/-- Witness for C8's amended theorem: with Transform failing after a
successful Extract, the run's log and executed-stage list are exactly the
Transform-failure shape. -/
theorem orchestrator_halts_witness :
    pipelineMain transformFails =
      ([.started .extract, .completedIn .extract 7, .started .transform,
        .errorIn .transform, .stackTrace .transform,
        .pipelineStoppedAt .transform],
       [.extract, .transform]) :=
  (orchestrator_halts_and_logs transformFails).2.1 rfl rfl

/-! ## C9 — analytics on an empty persisted dataset -/

/-- C9 counterexample: on zero rows the engine does print the no-data line
and does not raise, but it returns early producing NO outputs at all —
in particular it does not yield the all-null KPI summary together with empty
distribution and trend sequences that the claim describes. -/
theorem analysis_empty_counterexample :
    (analysisMain []).noDataSignal = true ∧
    (analysisMain []).outputs ≠ some (nullKpiSummary, [], []) ∧
    (analysisMain []).outputs = none := by
  decide

/-- C9 amended: given zero rows the Analytics Engine never raises — it emits
the "no data" signal and returns early, computing and saving no KPI summary,
no risk distribution and no trend rows. -/
theorem analysis_empty_returns_early :
    analysisMain [] = ⟨true, none⟩ := rfl

/-! ## C10 — city attribution from the raw filename -/

/-- Python split("_") never returns an empty field list. -/
theorem pySplitUnderscore_ne_nil (l : List Char) :
    pySplitUnderscore l ≠ [] := by
  induction l with
  | nil => simp [pySplitUnderscore]
  | cons c rest ih =>
    simp only [pySplitUnderscore]
    by_cases h : c = '_'
    · simp [h]
    · rw [if_neg h]
      cases hr : pySplitUnderscore rest <;> simp

/-- The first field of Python split("_") is the longest underscore-free
prefix. -/
theorem pySplitUnderscore_head (l : List Char) :
    (pySplitUnderscore l).headD [] = takeBeforeUnderscore l := by
  induction l with
  | nil => rfl
  | cons c rest ih =>
    simp only [pySplitUnderscore, takeBeforeUnderscore]
    by_cases h : c = '_'
    · simp [h]
    · rw [if_neg h, if_neg h]
      cases hr : pySplitUnderscore rest with
      | nil => exact absurd hr (pySplitUnderscore_ne_nil rest)
      | cons t ts =>
        rw [hr] at ih
        simpa using ih

/-- Appending text after an underscore never changes the pre-underscore
prefix. -/
theorem takeBeforeUnderscore_append (city rest : List Char) :
    takeBeforeUnderscore (city ++ '_' :: rest) = takeBeforeUnderscore city := by
  induction city with
  | nil => simp [takeBeforeUnderscore]
  | cons c cs ih =>
    simp only [List.cons_append, takeBeforeUnderscore]
    by_cases h : c = '_'
    · simp [h]
    · rw [if_neg h, if_neg h]
      exact congrArg (fun l => c :: l) ih

/-- A string containing an underscore is strictly longer than its
pre-underscore prefix. -/
theorem takeBeforeUnderscore_length_lt (city : List Char)
    (h : '_' ∈ city) :
    (takeBeforeUnderscore city).length < city.length := by
  induction city with
  | nil => cases h
  | cons c cs ih =>
    simp only [takeBeforeUnderscore]
    by_cases hc : c = '_'
    · simp [hc]
    · rw [if_neg hc]
      have hmem : '_' ∈ cs := by
        rcases List.mem_cons.1 h with h1 | h1
        · exact absurd h1.symm hc
        · exact h1
      simpa using ih hmem

/-- A string free of underscores equals its pre-underscore prefix. -/
theorem takeBeforeUnderscore_of_not_mem (city : List Char)
    (h : '_' ∉ city) :
    takeBeforeUnderscore city = city := by
  induction city with
  | nil => rfl
  | cons c cs ih =>
    have hc : c ≠ '_' := fun hceq => h (List.mem_cons.2 (Or.inl hceq.symm))
    have hcs : '_' ∉ cs := fun hm => h (List.mem_cons.2 (Or.inr hm))
    simp only [takeBeforeUnderscore]
    rw [if_neg hc, ih hcs]

/-- C10: the city attributed to a raw file's rows is the substring of the
filename before the first underscore; since extract.py writes
city ++ "_raw_" ++ timestamp ++ ".json", this recovers exactly the city's own
pre-underscore prefix — a city name that itself contains an underscore is
silently truncated, while an underscore-free city name round-trips intact. -/
theorem city_attribution_from_filename (city ts : List Char) :
    cityFromFilename (mkRawFilename city ts) = takeBeforeUnderscore city ∧
    ('_' ∈ city → cityFromFilename (mkRawFilename city ts) ≠ city) ∧
    ('_' ∉ city → cityFromFilename (mkRawFilename city ts) = city) := by
  have hsplit : mkRawFilename city ts =
      city ++ '_' :: ("raw_".toList ++ ts ++ ".json".toList) := by
    simp [mkRawFilename]
  have hmain : cityFromFilename (mkRawFilename city ts) =
      takeBeforeUnderscore city := by
    rw [cityFromFilename, pySplitUnderscore_head, hsplit,
      takeBeforeUnderscore_append]
  refine ⟨hmain, ?_, ?_⟩
  · intro hmem
    rw [hmain]
    intro heq
    have := takeBeforeUnderscore_length_lt city hmem
    rw [heq] at this
    omega
  · intro hnot
    rw [hmain]
    exact takeBeforeUnderscore_of_not_mem city hnot

/-- Witness for C10: the filename for a configured city "New_Delhi" yields
the truncated city "New". -/
theorem city_attribution_witness :
    cityFromFilename (mkRawFilename ("New_Delhi".toList) ("20240101".toList))
      ≠ "New_Delhi".toList :=
  (city_attribution_from_filename ("New_Delhi".toList)
    ("20240101".toList)).2.1 (by decide)

end ETL


